import Mathlib

/-!
Shallow embedding of the FlamesBlue Electronics catalog API
(`backend/main.py`) together with the store primitives it imports from
`database.py` (the latter are modelled from the specification, since that
file is not part of the sources).

Python documents (Mongo-style dicts) are modelled as ordered association
lists from string keys to a `Value` type covering every shape of value the
program stores or produces.  BSON ObjectIds are modelled by their 24
hexadecimal-character string form; equality of ObjectIds is equality of the
lower-cased hex string, as in BSON.
-/

namespace FlamesBlue

/-- Values a catalog document field may hold (the shapes used by this
program: null, booleans, numbers, strings, ObjectIds, lists of strings and
flat string-to-string mappings). -/
inductive Value where
  | vNone
  | vBool (b : Bool)
  | vNum (q : Rat)
  | vStr (s : String)
  | vOid (s : String)
  | vStrList (xs : List String)
  | vStrDict (xs : List (String × String))
deriving DecidableEq, Repr

/-- Python truthiness of a `Value` (ObjectIds are always truthy). -/
def Value.truthy : Value → Bool
  | .vNone => false
  | .vBool b => b
  | .vNum q => q != 0
  | .vStr s => s != ""
  | .vOid _ => true
  | .vStrList xs => !xs.isEmpty
  | .vStrDict xs => !xs.isEmpty

/-- Python `str(v)` on a `Value`.  For an ObjectId this is its hex string;
for containers only the fact that the result is never a bare hex string
matters to the program (it is fed to ObjectId validation). -/
def pyStr : Value → String
  | .vNone => "None"
  | .vBool b => if b then "True" else "False"
  | .vNum q => toString q
  | .vStr s => s
  | .vOid s => s
  | .vStrList xs => "[" ++ String.intercalate ", " xs ++ "]"
  | .vStrDict xs => "(" ++ String.intercalate ", " (xs.map (fun kv => kv.1 ++ ": " ++ kv.2)) ++ ")"

/-- A document: an ordered dict from string keys to values. -/
abbrev Doc := List (String × Value)

/-- `doc.get(k)`: the binding of key `k`, if any. -/
def dictGet : Doc → String → Option Value
  | [], _ => none
  | kv :: t, k => if kv.1 = k then some kv.2 else dictGet t k

/-- `doc[k] = v`: overwrite the binding in place if the key exists,
otherwise append it at the end (Python dict insertion order). -/
def dictSet : Doc → String → Value → Doc
  | [], k, v => [(k, v)]
  | kv :: t, k, v => if kv.1 = k then (k, v) :: t else kv :: dictSet t k v

/-- `doc.pop(k)`: remove the binding of key `k`. -/
def dictPop : Doc → String → Doc
  | [], _ => []
  | kv :: t, k => if kv.1 = k then dictPop t k else kv :: dictPop t k

/-- Hexadecimal digit (either case), as accepted by BSON ObjectId parsing. -/
def isHexDigitChar (c : Char) : Bool :=
  c.isDigit || (('a' : Char) ≤ c && c ≤ ('f' : Char)) || (('A' : Char) ≤ c && c ≤ ('F' : Char))

/-- A string is accepted by `bson.ObjectId(...)` iff it is 24 hex characters. -/
def isValidOid (s : String) : Bool :=
  s.length == 24 && s.data.all isHexDigitChar

/-- Lower-casing of a string (canonicalisation of an ObjectId hex string). -/
def lowerStr (s : String) : String :=
  String.mk (s.data.map Char.toLower)

/-- Canonical ObjectId string: valid hex of length 24, already lower case.
Every identifier the store itself assigns has this shape. -/
def isCanonicalOid (s : String) : Bool :=
  isValidOid s && lowerStr s == s

/-- `ObjectId(pid)` on a string: succeeds exactly on 24-hex-char strings and
yields the canonical (lower case) identifier. -/
def parseOid (s : String) : Option String :=
  if isValidOid s then some (lowerStr s) else none

/-- Identifier assigned by the store to the `n`-th inserted document
(modelling the store-generated unique ObjectId). -/
def genOid (n : Nat) : String :=
  let ds := Nat.toDigits 16 n
  String.mk (List.replicate (24 - ds.length) ('0' : Char) ++ ds)

/-- Body of `serialize_doc` on a non-empty dict: if `_id` is present and
truthy it is popped and replaced by a public string field `id`; otherwise
`id` is set to `None` and `_id` (if present) is left in place. -/
def serialize_core (d : Doc) : Doc :=
  match dictGet d "_id" with
  | some v => if v.truthy then dictSet (dictPop d "_id") "id" (.vStr (pyStr v))
              else dictSet d "id" .vNone
  | none => dictSet d "id" .vNone

/-- `serialize_doc` restricted to dict inputs (the `if not doc` guard keeps
an empty dict unchanged). -/
def serializeD (d : Doc) : Doc :=
  if d.isEmpty then d else serialize_core d

/-- `serialize_doc` including the `None` input case. -/
def serialize_doc : Option Doc → Option Doc
  | none => none
  | some d => some (serializeD d)

namespace ObjectIdStr

/-- `ObjectIdStr.validate`: an ObjectId instance is turned into its string;
any other value is turned into `str(v)` and accepted iff that string parses
as an ObjectId, otherwise `ValueError("Invalid ObjectId")` is raised. -/
def validate (v : Value) : Except String String :=
  match v with
  | .vOid s => .ok s
  | _ => if isValidOid (pyStr v) then .ok (pyStr v) else .error "Invalid ObjectId"

end ObjectIdStr

/-- Response payload for one product (`ProductOut`). -/
structure ProductOut where
  title : String
  description : Option String
  price : Rat
  category : String
  in_stock : Bool
  images : List String
  model_url : Option String
  featured : Bool
  rating : Rat
  specs : Option (List (String × String))
  id : String
deriving DecidableEq, Repr

/-- Required `str` field of a pydantic model. -/
def getStrField (d : Doc) (k : String) : Except String String :=
  match dictGet d k with
  | some (.vStr s) => .ok s
  | some _ => .error "str expected"
  | none => .error "field required"

/-- `Optional[str]` field with default `None`. -/
def getOptStrField (d : Doc) (k : String) : Except String (Option String) :=
  match dictGet d k with
  | some (.vStr s) => .ok (some s)
  | some .vNone => .ok none
  | some _ => .error "str or none expected"
  | none => .ok none

/-- Required `float` field. -/
def getNumField (d : Doc) (k : String) : Except String Rat :=
  match dictGet d k with
  | some (.vNum q) => .ok q
  | some _ => .error "number expected"
  | none => .error "field required"

/-- `float` field with a default. -/
def getNumFieldD (d : Doc) (k : String) (dflt : Rat) : Except String Rat :=
  match dictGet d k with
  | some (.vNum q) => .ok q
  | some _ => .error "number expected"
  | none => .ok dflt

/-- `bool` field with a default. -/
def getBoolFieldD (d : Doc) (k : String) (dflt : Bool) : Except String Bool :=
  match dictGet d k with
  | some (.vBool b) => .ok b
  | some _ => .error "bool expected"
  | none => .ok dflt

/-- `List[str]` field with default `[]`. -/
def getStrListField (d : Doc) (k : String) : Except String (List String) :=
  match dictGet d k with
  | some (.vStrList xs) => .ok xs
  | some _ => .error "list of str expected"
  | none => .ok []

/-- `Optional[dict]` field with default `None`. -/
def getSpecsField (d : Doc) : Except String (Option (List (String × String))) :=
  match dictGet d "specs" with
  | some (.vStrDict xs) => .ok (some xs)
  | some .vNone => .ok none
  | some _ => .error "dict or none expected"
  | none => .ok none

/-- The `id : ObjectIdStr` field: required, and run through
`ObjectIdStr.validate`. -/
def getIdField (d : Doc) : Except String String :=
  match dictGet d "id" with
  | some v => ObjectIdStr.validate v
  | none => .error "field required"

/-- `ProductOut(**d)`: pydantic construction from keyword arguments; any
field failure makes the whole construction fail. -/
def mkProductOut (d : Doc) : Except String ProductOut :=
  match getIdField d, getStrField d "title", getOptStrField d "description",
        getNumField d "price", getStrField d "category", getBoolFieldD d "in_stock" true,
        getStrListField d "images", getOptStrField d "model_url",
        getBoolFieldD d "featured" false, getNumFieldD d "rating" (mkRat 46 10),
        getSpecsField d with
  | .ok id, .ok title, .ok description, .ok price, .ok category, .ok in_stock,
    .ok images, .ok model_url, .ok featured, .ok rating, .ok specs =>
      .ok ⟨title, description, price, category, in_stock, images, model_url,
           featured, rating, specs, id⟩
  | _, _, _, _, _, _, _, _, _, _, _ => .error "validation error"

/-- `ProductOut(**serialize_doc(d))`: the serialization pipeline applied to
one store document. -/
def docToOut (d : Doc) : Except String ProductOut :=
  mkProductOut (serializeD d)

/-- `[ProductOut(**serialize_doc(d)) for d in docs]`: the first failure
aborts the whole response (FastAPI then answers with a server error). -/
def outsOfDocs : List Doc → Except String (List ProductOut)
  | [] => .ok []
  | d :: ds =>
    match docToOut d with
    | .error e => .error e
    | .ok p =>
      match outsOfDocs ds with
      | .error e => .error e
      | .ok l => .ok (p :: l)

/-- State of the product collection behind the global `db` handle.
`findFails` models a store-side failure mode in which queries issued
through the handle raise (connection lost after startup); `gen` is the
counter from which the store derives the next assigned ObjectId. -/
structure DBState where
  docs : List Doc
  findFails : Bool
  gen : Nat
deriving DecidableEq, Repr

/-- `db["product"].find_one({"_id": oid})`: first document whose `_id` is
the given ObjectId. -/
def findOne (docs : List Doc) (o : String) : Option Doc :=
  docs.find? (fun d => dictGet d "_id" == some (.vOid o))

/-- One condition of a Mongo-style filter document: field equality,
`$ne`, or a case-insensitive `$regex` containment on a string field. -/
inductive Cond where
  | eq (k : String) (v : Value)
  | ne (k : String) (v : Value)
  | regexI (k : String) (pat : String)
deriving DecidableEq, Repr

/-- Does the pattern occur as a prefix of the text? -/
def segStarts : List Char → List Char → Bool
  | [], _ => true
  | _ :: _, [] => false
  | a :: as, b :: bs => a == b && segStarts as bs

/-- Does the pattern occur contiguously anywhere in the text? -/
def segIn (p : List Char) : List Char → Bool
  | [] => p.isEmpty
  | b :: t => segStarts p (b :: t) || segIn p t

/-- Case-insensitive substring containment of `pat` in `s`. -/
def containsCI (s pat : String) : Bool :=
  segIn (pat.data.map Char.toLower) (s.data.map Char.toLower)

/-- Satisfaction of one filter condition by a document (`$ne` matches a
missing field, as in Mongo). -/
def condHolds (d : Doc) : Cond → Bool
  | .eq k v => dictGet d k == some v
  | .ne k v =>
    match dictGet d k with
    | some w => w != v
    | none => true
  | .regexI k pat =>
    match dictGet d k with
    | some (.vStr s) => containsCI s pat
    | _ => false

/-- Satisfaction of a whole filter (conjunction of its conditions). -/
def matchesFilter (f : List Cond) (d : Doc) : Bool :=
  f.all (condHolds d)

/-- Modelled from the spec: `get_documents(collection, filter, limit)` from
`database.py`, which is not under the sources.  Per the specification it
returns up to `limit` documents matching `filter` in store order, and a
store that is unavailable or erroring yields an empty result for listing
reads rather than an error. -/
def get_documents (db : Option DBState) (f : List Cond) (limit : Nat) : List Doc :=
  match db with
  | none => []
  | some st =>
    if st.findFails then []
    else (st.docs.filter (matchesFilter f)).take limit

/-- Modelled from the spec: `create_document(collection, document)` from
`database.py`, which is not under the sources.  It inserts the document,
the store assigning it a fresh unique ObjectId. -/
def create_document (st : DBState) (d : Doc) : DBState :=
  { st with docs := st.docs ++ [dictSet d "_id" (.vOid (genOid st.gen))],
            gen := st.gen + 1 }

/-- The four hardcoded sample records (`SAMPLE_PRODUCTS`). -/
def SAMPLE_PRODUCTS : List Doc :=
  [ [ ("title", .vStr "FlamesBlue Nova X Pro"),
      ("description", .vStr "Flagship 6.7\" OLED, triple camera, 5G."),
      ("price", .vNum (mkRat 10990 10)),
      ("category", .vStr "Phones"),
      ("in_stock", .vBool true),
      ("images", .vStrList ["https://images.unsplash.com/photo-1511707171634-5f897ff02aa9?w=1200&q=80&auto=format&fit=crop"]),
      ("model_url", .vNone),
      ("featured", .vBool true),
      ("rating", .vNum (mkRat 48 10)),
      ("specs", .vStrDict [("display", "6.7\" OLED"), ("chip", "FBX-2"), ("ram", "12GB"), ("storage", "256GB")]) ],
    [ ("title", .vStr "FlamesBlue AirLite Case"),
      ("description", .vStr "Featherweight, shock-absorbent case for Nova series."),
      ("price", .vNum (mkRat 390 10)),
      ("category", .vStr "Phone Cases"),
      ("in_stock", .vBool true),
      ("images", .vStrList ["https://images.unsplash.com/photo-1585386959984-a4155223168f?w=1200&q=80&auto=format&fit=crop"]),
      ("model_url", .vNone),
      ("featured", .vBool true),
      ("rating", .vNum (mkRat 45 10)),
      ("specs", .vStrDict [("material", "TPU"), ("weight", "18g")]) ],
    [ ("title", .vStr "FlamesBlue Atlas 15"),
      ("description", .vStr "Ultrabook 15\" with RTX graphics for creators."),
      ("price", .vNum (mkRat 17990 10)),
      ("category", .vStr "Laptops"),
      ("in_stock", .vBool true),
      ("images", .vStrList ["https://images.unsplash.com/photo-1517336714731-489689fd1ca8?w=1200&q=80&auto=format&fit=crop"]),
      ("model_url", .vNone),
      ("featured", .vBool true),
      ("rating", .vNum (mkRat 47 10)),
      ("specs", .vStrDict [("cpu", "12-core"), ("gpu", "RTX 4060"), ("ram", "32GB"), ("storage", "1TB")]) ],
    [ ("title", .vStr "FlamesBlue Arc Buds"),
      ("description", .vStr "ANC wireless earbuds with spatial audio."),
      ("price", .vNum (mkRat 1490 10)),
      ("category", .vStr "Accessories"),
      ("in_stock", .vBool true),
      ("images", .vStrList ["https://images.unsplash.com/photo-1518445696298-1f784b22145a?w=1200&q=80&auto=format&fit=crop"]),
      ("model_url", .vNone),
      ("featured", .vBool false),
      ("rating", .vNum (mkRat 44 10)),
      ("specs", .vStrDict [("battery", "36h"), ("waterproof", "IPX5")]) ] ]

/-- `seed_database_if_empty`: no-op when the handle is absent; any store
exception (counting or inserting) is swallowed; otherwise the four sample
records are inserted exactly when the collection is empty. -/
def seed_database_if_empty (db : Option DBState) : Option DBState :=
  match db with
  | none => none
  | some st =>
    if st.findFails then some st
    else if st.docs.length = 0 then some (SAMPLE_PRODUCTS.foldl create_document st)
    else some st

/-- Outcome of one HTTP request: a payload, or an error response with a
status code and detail. -/
inductive ApiResult (α : Type) where
  | ok (val : α)
  | err (status : Nat) (detail : String)
deriving DecidableEq, Repr

/-- Filter built by `list_products`: an empty or absent `category` adds no
condition (Python truthiness of the query parameter). -/
def categoryFilter : Option String → List Cond
  | some c => if c ≠ "" then [.eq "category" (.vStr c)] else []
  | none => []

/-- `GET /api/products`: `limit` is validated to [1,100] before the handler
runs.  The second component counts the store queries issued. -/
def list_products (db : Option DBState) (category : Option String) (limit : Int) :
    ApiResult (List ProductOut) × Nat :=
  if limit < 1 ∨ 100 < limit then (.err 422 "Input validation failed", 0)
  else
    match outsOfDocs (get_documents db (categoryFilter category) limit.toNat) with
    | .ok l => (.ok l, 1)
    | .error e => (.err 500 e, 1)

/-- `GET /api/products/featured`: `limit` validated to [1,50], filter
`{"featured": true}`. -/
def featured_products (db : Option DBState) (limit : Int) : ApiResult (List ProductOut) :=
  if limit < 1 ∨ 50 < limit then .err 422 "Input validation failed"
  else
    match outsOfDocs (get_documents db [.eq "featured" (.vBool true)] limit.toNat) with
    | .ok l => .ok l
    | .error e => .err 500 e

/-- `GET /api/products/{product_id}`: 503 without a handle; the `try` block
turns any exception (malformed id or store-side failure) into 400; a
missing document is 404; a document the response model rejects is a server
error. -/
def get_product (db : Option DBState) (pid : String) : ApiResult ProductOut :=
  match db with
  | none => .err 503 "Database not available"
  | some st =>
    match parseOid pid with
    | none => .err 400 "Invalid product id"
    | some o =>
      if st.findFails then .err 400 "Invalid product id"
      else
        match findOne st.docs o with
        | none => .err 404 "Product not found"
        | some d =>
          match docToOut d with
          | .ok p => .ok p
          | .error e => .err 500 e

/-- `GET /api/search`: `limit` validated to [1,100]; an empty `q` returns
an empty list before any store access; otherwise a case-insensitive title
containment query is issued.  The second component counts the store
queries issued. -/
def search_products (db : Option DBState) (q : String) (limit : Int) :
    ApiResult (List ProductOut) × Nat :=
  if limit < 1 ∨ 100 < limit then (.err 422 "Input validation failed", 0)
  else if q = "" then (.ok [], 0)
  else
    match outsOfDocs (get_documents db [.regexI "title" q] limit.toNat) with
    | .ok l => (.ok l, 1)
    | .error e => (.err 500 e, 1)

/-- `GET /api/recommendations/{product_id}`: `limit` validated to [1,12];
an absent handle, a malformed id, a store-side lookup failure or a missing
document each yield an empty list; otherwise the documents of the same
category, the looked-up one excluded, are returned up to `limit`. -/
def recommendations (db : Option DBState) (pid : String) (limit : Int) :
    ApiResult (List ProductOut) :=
  if limit < 1 ∨ 12 < limit then .err 422 "Input validation failed"
  else
    match db with
    | none => .ok []
    | some st =>
      match parseOid pid with
      | none => .ok []
      | some o =>
        if st.findFails then .ok []
        else
          match findOne st.docs o with
          | none => .ok []
          | some doc =>
            match outsOfDocs ((st.docs.filter (matchesFilter
                [.eq "category" ((dictGet doc "category").getD .vNone),
                 .ne "_id" (.vOid o)])).take limit.toNat) with
            | .ok l => .ok l
            | .error e => .err 500 e

/-- A store document is well formed when its `_id` is a store-assigned
ObjectId in canonical form. -/
def WFDoc (d : Doc) : Bool :=
  match dictGet d "_id" with
  | some (.vOid s) => isCanonicalOid s
  | _ => false

/-- Every document of the collection is well formed. -/
def WFStore : Option DBState → Bool
  | none => true
  | some st => st.docs.all WFDoc

/-- Number of records in the product collection (zero without a handle). -/
def recordCount : Option DBState → Nat
  | none => 0
  | some st => st.docs.length

/-- The store state before the first startup: connected, empty collection. -/
def emptyStore : DBState := ⟨[], false, 0⟩

/-- The response payload of the seeded Nova X Pro record. -/
def novaOut : ProductOut :=
  ⟨"FlamesBlue Nova X Pro", some "Flagship 6.7\" OLED, triple camera, 5G.",
   mkRat 10990 10, "Phones", true,
   ["https://images.unsplash.com/photo-1511707171634-5f897ff02aa9?w=1200&q=80&auto=format&fit=crop"],
   none, true, mkRat 48 10,
   some [("display", "6.7\" OLED"), ("chip", "FBX-2"), ("ram", "12GB"), ("storage", "256GB")],
   genOid 0⟩

/-- The response payload of the seeded AirLite Case record. -/
def airliteOut : ProductOut :=
  ⟨"FlamesBlue AirLite Case", some "Featherweight, shock-absorbent case for Nova series.",
   mkRat 390 10, "Phone Cases", true,
   ["https://images.unsplash.com/photo-1585386959984-a4155223168f?w=1200&q=80&auto=format&fit=crop"],
   none, true, mkRat 45 10,
   some [("material", "TPU"), ("weight", "18g")],
   genOid 1⟩

/-- The response payload of the seeded Atlas 15 record. -/
def atlasOut : ProductOut :=
  ⟨"FlamesBlue Atlas 15", some "Ultrabook 15\" with RTX graphics for creators.",
   mkRat 17990 10, "Laptops", true,
   ["https://images.unsplash.com/photo-1517336714731-489689fd1ca8?w=1200&q=80&auto=format&fit=crop"],
   none, true, mkRat 47 10,
   some [("cpu", "12-core"), ("gpu", "RTX 4060"), ("ram", "32GB"), ("storage", "1TB")],
   genOid 2⟩

section DictLemmas

theorem dictGet_nil (k : String) : dictGet [] k = none := rfl

theorem dictGet_dictSet_self (d : Doc) (k : String) (v : Value) :
    dictGet (dictSet d k v) k = some v := by
  induction d with
  | nil => simp [dictSet, dictGet]
  | cons kv t ih =>
    by_cases h : kv.1 = k
    · simp [dictSet, h, dictGet]
    · simp [dictSet, h, dictGet, ih]

theorem dictGet_dictSet_ne (d : Doc) (k k2 : String) (v : Value) (h : k2 ≠ k) :
    dictGet (dictSet d k v) k2 = dictGet d k2 := by
  induction d with
  | nil => simp [dictSet, dictGet, Ne.symm h]
  | cons kv t ih =>
    by_cases hk : kv.1 = k
    · simp [dictSet, hk, dictGet, Ne.symm h, hk ▸ Ne.symm h]
    · simp [dictSet, hk, dictGet, ih]

theorem dictGet_dictPop_self (d : Doc) (k : String) :
    dictGet (dictPop d k) k = none := by
  induction d with
  | nil => simp [dictPop, dictGet]
  | cons kv t ih =>
    by_cases h : kv.1 = k
    · simp [dictPop, h, ih]
    · simp [dictPop, h, dictGet, ih]

theorem dictGet_dictPop_ne (d : Doc) (k k2 : String) (h : k2 ≠ k) :
    dictGet (dictPop d k) k2 = dictGet d k2 := by
  induction d with
  | nil => simp [dictPop]
  | cons kv t ih =>
    by_cases hk : kv.1 = k
    · simp [dictPop, hk, dictGet, ih, Ne.symm h]
    · simp [dictPop, hk, dictGet, ih]

theorem dictGet_ne_nil {d : Doc} {k : String} {v : Value}
    (h : dictGet d k = some v) : d ≠ [] := by
  intro hd; subst hd; simp [dictGet] at h

end DictLemmas

section SerializeLemmas

theorem serializeD_truthy {d : Doc} {v : Value}
    (h : dictGet d "_id" = some v) (ht : v.truthy = true) :
    serializeD d = dictSet (dictPop d "_id") "id" (.vStr (pyStr v)) := by
  have hne : d ≠ [] := dictGet_ne_nil h
  unfold serializeD serialize_core
  rw [h]
  simp [List.isEmpty_iff, hne, ht]

theorem serializeD_falsy {d : Doc} {v : Value}
    (h : dictGet d "_id" = some v) (ht : v.truthy = false) :
    serializeD d = dictSet d "id" .vNone := by
  have hne : d ≠ [] := dictGet_ne_nil h
  unfold serializeD serialize_core
  rw [h]
  simp [List.isEmpty_iff, hne, ht]

theorem serializeD_no_id {d : Doc}
    (h : dictGet d "_id" = none) (hne : d ≠ []) :
    serializeD d = dictSet d "id" .vNone := by
  unfold serializeD serialize_core
  rw [h]
  simp [List.isEmpty_iff, hne]

theorem serializeD_get_id (d : Doc) (hne : d ≠ []) :
    dictGet (serializeD d) "id" =
      some (match dictGet d "_id" with
            | some v => if v.truthy then .vStr (pyStr v) else .vNone
            | none => .vNone) := by
  cases h : dictGet d "_id" with
  | none => rw [serializeD_no_id h hne, dictGet_dictSet_self]
  | some v =>
    cases ht : v.truthy with
    | true => rw [serializeD_truthy h ht, dictGet_dictSet_self]; simp [ht]
    | false => rw [serializeD_falsy h ht, dictGet_dictSet_self]; simp [ht]

theorem serializeD_get_other (d : Doc) (k : String) (h1 : k ≠ "id") (h2 : k ≠ "_id") :
    dictGet (serializeD d) k = dictGet d k := by
  by_cases hne : d = []
  · subst hne; rfl
  · cases h : dictGet d "_id" with
    | none => rw [serializeD_no_id h hne, dictGet_dictSet_ne _ _ _ _ h1]
    | some v =>
      cases ht : v.truthy with
      | true =>
        rw [serializeD_truthy h ht, dictGet_dictSet_ne _ _ _ _ h1,
            dictGet_dictPop_ne _ _ _ h2]
      | false => rw [serializeD_falsy h ht, dictGet_dictSet_ne _ _ _ _ h1]

end SerializeLemmas

section ModelLemmas



theorem mkProductOut_ok_fields {d : Doc} {p : ProductOut} (h : mkProductOut d = .ok p) :
    getIdField d = .ok p.id ∧ getStrField d "category" = .ok p.category := by
  unfold mkProductOut at h
  split at h
  · cases h
    rename_i h1 h2 h3 h4 h5 h6 h7 h8 h9 h10 h11
    exact ⟨h1, h5⟩
  · cases h

theorem mkProductOut_err_of_id {d : Doc} {e : String} (h : getIdField d = .error e) :
    mkProductOut d = .error "validation error" := by
  unfold mkProductOut
  split
  · rename_i h1 h2 h3 h4 h5 h6 h7 h8 h9 h10 h11
    rw [h] at h1
    cases h1
  · rfl



theorem validate_vStr (s : String) : ObjectIdStr.validate (.vStr s) =
    if isValidOid s then .ok s else .error "Invalid ObjectId" := rfl

theorem validate_vNone : ObjectIdStr.validate .vNone = .error "Invalid ObjectId" := rfl

theorem getIdField_eq {d : Doc} {v : Value} (h : dictGet d "id" = some v) :
    getIdField d = ObjectIdStr.validate v := by
  unfold getIdField
  rw [h]

theorem docToOut_ok_core {d : Doc} {p : ProductOut} (h : docToOut d = .ok p) :
    ∃ v, dictGet d "_id" = some v ∧ v.truthy = true ∧ p.id = pyStr v ∧
      isValidOid p.id = true := by
  unfold docToOut at h
  obtain ⟨hid, -⟩ := mkProductOut_ok_fields h
  by_cases hne : d = []
  · subst hne
    simp [serializeD, getIdField, dictGet] at hid
  · cases hv : dictGet d "_id" with
    | none =>
      rw [serializeD_no_id hv hne, getIdField_eq (dictGet_dictSet_self d "id" .vNone),
          validate_vNone] at hid
      cases hid
    | some v =>
      cases ht : v.truthy with
      | false =>
        rw [serializeD_falsy hv ht, getIdField_eq (dictGet_dictSet_self d "id" .vNone),
            validate_vNone] at hid
        cases hid
      | true =>
        rw [serializeD_truthy hv ht,
            getIdField_eq (dictGet_dictSet_self (dictPop d "_id") "id" (.vStr (pyStr v))),
            validate_vStr] at hid
        by_cases hval : isValidOid (pyStr v) = true
        · rw [if_pos hval] at hid
          injection hid with hid
          exact ⟨v, rfl, ht, hid.symm, hid ▸ hval⟩
        · rw [if_neg hval] at hid
          cases hid

theorem docToOut_ok_id {d : Doc} {p : ProductOut} (h : docToOut d = .ok p) :
    isValidOid p.id = true := by
  obtain ⟨v, -, -, -, hval⟩ := docToOut_ok_core h
  exact hval

theorem docToOut_ok_category {d : Doc} {p : ProductOut} (h : docToOut d = .ok p) :
    dictGet d "category" = some (.vStr p.category) := by
  obtain ⟨-, hcat⟩ := mkProductOut_ok_fields h
  rw [← serializeD_get_other d "category" (by decide) (by decide)]
  unfold getStrField at hcat
  split at hcat
  · rename_i s hg
    cases hcat
    exact hg
  · cases hcat
  · cases hcat

theorem docToOut_WF_id {d : Doc} {p : ProductOut} (hwf : WFDoc d = true)
    (h : docToOut d = .ok p) :
    dictGet d "_id" = some (.vOid p.id) ∧ isCanonicalOid p.id = true := by
  obtain ⟨v, hv, ht, hpid, hval⟩ := docToOut_ok_core h
  unfold WFDoc at hwf
  rw [hv] at hwf
  cases v with
  | vOid s =>
    have : p.id = s := by simpa [pyStr] using hpid
    subst this
    exact ⟨hv, hwf⟩
  | vNone => cases hwf
  | vBool b => cases hwf
  | vNum q => cases hwf
  | vStr s => cases hwf
  | vStrList xs => cases hwf
  | vStrDict xs => cases hwf

theorem outsOfDocs_mem {ds : List Doc} {l : List ProductOut} (h : outsOfDocs ds = .ok l)
    {p : ProductOut} (hp : p ∈ l) : ∃ d, d ∈ ds ∧ docToOut d = .ok p := by
  induction ds generalizing l with
  | nil =>
    unfold outsOfDocs at h
    cases h
    cases hp
  | cons d ds ih =>
    unfold outsOfDocs at h
    cases h1 : docToOut d <;> rw [h1] at h
    · cases h
    · cases h2 : outsOfDocs ds <;> rw [h2] at h
      · cases h
      · cases h
        rcases List.mem_cons.mp hp with rfl | hmem
        · exact ⟨d, List.mem_cons_self d ds, h1⟩
        · obtain ⟨d2, hd2, hout⟩ := ih h2 hmem
          exact ⟨d2, List.mem_cons_of_mem d hd2, hout⟩

theorem outsOfDocs_length {ds : List Doc} {l : List ProductOut}
    (h : outsOfDocs ds = .ok l) : l.length = ds.length := by
  induction ds generalizing l with
  | nil => unfold outsOfDocs at h; cases h; rfl
  | cons d ds ih =>
    unfold outsOfDocs at h
    cases h1 : docToOut d <;> rw [h1] at h
    · cases h
    · cases h2 : outsOfDocs ds <;> rw [h2] at h
      · cases h
      · cases h
        simp [ih h2]

theorem parseOid_canonical {s : String} (h : isCanonicalOid s = true) :
    parseOid s = some s := by
  unfold isCanonicalOid at h
  rw [Bool.and_eq_true] at h
  obtain ⟨h1, h2⟩ := h
  unfold parseOid
  simp [h1, eq_of_beq h2]

end ModelLemmas

section SeedLemmas

theorem seeded_state (st : DBState) :
    (SAMPLE_PRODUCTS.foldl create_document st).findFails = st.findFails ∧
    (SAMPLE_PRODUCTS.foldl create_document st).docs.length = st.docs.length + 4 := by
  simp [SAMPLE_PRODUCTS, create_document, List.foldl]

end SeedLemmas

/-- C1, counterexample: after the startup seed runs on an empty store, the
featured-products endpoint with its default limit does not return only the
Nova X Pro and AirLite Case records — the seeded Atlas 15 record also has
its featured flag set and is returned as well. -/
theorem featured_two_records_cex :
    featured_products (seed_database_if_empty (some emptyStore)) 10 ≠
      .ok [novaOut, airliteOut] ∧
    featured_products (seed_database_if_empty (some emptyStore)) 10 =
      .ok [novaOut, airliteOut, atlasOut] ∧
    atlasOut.featured = true ∧ atlasOut.title = "FlamesBlue Atlas 15" :=
  ⟨by decide, by decide, rfl, rfl⟩

/-- C1, amended: after the startup seed runs on an empty store with the
four sample records, the featured-products endpoint with its default limit
returns exactly the three seeded records whose featured flag is true —
Nova X Pro, AirLite Case and Atlas 15 — and no others. -/
theorem featured_three_records :
    featured_products (seed_database_if_empty (some emptyStore)) 10 =
      .ok [novaOut, airliteOut, atlasOut] := by decide

/-- C7: the startup seed is idempotent — running it twice in a row leaves
exactly the state, hence the record count, of running it once, the second
run being a no-op because the collection is then non-empty — and it is a
no-op when the store is unreachable (no handle), erroring, or already
non-empty. -/
theorem seed_idempotent :
    (∀ db, seed_database_if_empty (seed_database_if_empty db) =
        seed_database_if_empty db) ∧
    (∀ db, recordCount (seed_database_if_empty (seed_database_if_empty db)) =
        recordCount (seed_database_if_empty db)) ∧
    seed_database_if_empty none = none ∧
    (∀ st, st.findFails = true → seed_database_if_empty (some st) = some st) ∧
    (∀ st, st.docs.length ≠ 0 → seed_database_if_empty (some st) = some st) := by
  have key : ∀ db, seed_database_if_empty (seed_database_if_empty db) =
      seed_database_if_empty db := by
    intro db
    cases db with
    | none => rfl
    | some st =>
      by_cases hf : st.findFails = true
      · simp [seed_database_if_empty, hf]
      · by_cases h0 : st.docs.length = 0
        · obtain ⟨hff, hlen⟩ := seeded_state st
          simp [seed_database_if_empty, hf, h0, hff, hlen]
        · simp [seed_database_if_empty, hf, h0]
  refine ⟨key, fun db => by rw [key db], rfl, ?_, ?_⟩
  · intro st hf
    simp [seed_database_if_empty, hf]
  · intro st h0
    by_cases hf : st.findFails = true <;> simp [seed_database_if_empty, hf, h0]

/-- C7, witness: the seed is a no-op on a failing store and on a non-empty
store. -/
theorem seed_idempotent_w :
    seed_database_if_empty (some ⟨[], true, 0⟩) = some ⟨[], true, 0⟩ ∧
    seed_database_if_empty (some ⟨SAMPLE_PRODUCTS, false, 4⟩) =
      some ⟨SAMPLE_PRODUCTS, false, 4⟩ :=
  ⟨seed_idempotent.2.2.2.1 ⟨[], true, 0⟩ rfl,
   seed_idempotent.2.2.2.2 ⟨SAMPLE_PRODUCTS, false, 4⟩ (by decide)⟩

/-- C5: for every store state and every in-range limit, the search endpoint
called with an empty query string returns an empty sequence and issues no
query to the store. -/
theorem search_empty_query (db : Option DBState) (limit : Int)
    (h1 : 1 ≤ limit) (h2 : limit ≤ 100) :
    search_products db "" limit = (.ok [], 0) := by
  unfold search_products
  rw [if_neg (by omega), if_pos rfl]

/-- C5, witness: the empty query at the default limit, on a store in every
connectivity state. -/
theorem search_empty_query_w :
    search_products none "" 20 = (.ok [], 0) ∧
    search_products (some ⟨SAMPLE_PRODUCTS, false, 4⟩) "" 20 = (.ok [], 0) :=
  ⟨search_empty_query none 20 (by decide) (by decide),
   search_empty_query (some ⟨SAMPLE_PRODUCTS, false, 4⟩) 20 (by decide) (by decide)⟩

theorem get_documents_length (db : Option DBState) (f : List Cond) (n : Nat) :
    (get_documents db f n).length ≤ n := by
  unfold get_documents
  cases db with
  | none => simp
  | some st =>
    by_cases hf : st.findFails = true
    · simp [hf]
    · simp [hf, List.length_take_le]

/-- C2, counterexample: with no store connection, a syntactically malformed
id yields the 503 store-unavailable error, not the "invalid id" (400) error
the claim requires for every malformed id; and on a store handle whose
lookups fail, a well-formed id matching no product yields 400, not the 404
the claim requires. -/
theorem get_product_cex :
    (parseOid "zz" = none ∧
     get_product none "zz" = .err 503 "Database not available" ∧
     get_product none "zz" ≠ .err 400 "Invalid product id") ∧
    (parseOid (genOid 0) = some (genOid 0) ∧
     get_product (some ⟨[], true, 0⟩) (genOid 0) = .err 400 "Invalid product id" ∧
     get_product (some ⟨[], true, 0⟩) (genOid 0) ≠ .err 404 "Product not found") :=
  ⟨⟨by decide, rfl, by decide⟩, ⟨by decide, rfl, by decide⟩⟩

/-- C2, amended: without a store handle every id yields 503; with a handle,
a malformed id yields the "invalid id" (400) error and never "not found";
with a handle and no store-side lookup failure, a well-formed id matching
no product yields "not found" (404) and never a server error. -/
theorem get_product_errors :
    (∀ pid, get_product none pid = .err 503 "Database not available") ∧
    (∀ st pid, parseOid pid = none →
        get_product (some st) pid = .err 400 "Invalid product id") ∧
    (∀ st pid o, st.findFails = false → parseOid pid = some o →
        findOne st.docs o = none →
        get_product (some st) pid = .err 404 "Product not found") := by
  refine ⟨fun pid => rfl, ?_, ?_⟩
  · intro st pid h
    simp [get_product, h]
  · intro st pid o hf hp hfo
    simp [get_product, hp, hf, hfo]

/-- C2, witness: the malformed id "zz" yields 400 on a connected store; a
well-formed id absent from an empty connected store yields 404. -/
theorem get_product_errors_w :
    get_product (some emptyStore) "zz" = .err 400 "Invalid product id" ∧
    get_product (some emptyStore) (genOid 0) = .err 404 "Product not found" :=
  ⟨get_product_errors.2.1 emptyStore "zz" (by decide),
   get_product_errors.2.2 emptyStore (genOid 0) (genOid 0) rfl (by decide) rfl⟩

/-- C10: with an existing store handle, a store-side failure during the
lookup is converted by the handler's exception clause into the 400 "Invalid
product id" error even when the id is well formed — not into the 503
store-unavailable error. -/
theorem get_product_store_error (st : DBState) (pid o : String)
    (hp : parseOid pid = some o) (hf : st.findFails = true) :
    get_product (some st) pid = .err 400 "Invalid product id" ∧
    get_product (some st) pid ≠ .err 503 "Database not available" := by
  have h : get_product (some st) pid = .err 400 "Invalid product id" := by
    simp [get_product, hp, hf]
  exact ⟨h, by rw [h]; decide⟩

/-- C10, witness: a well-formed id on a failing store yields 400, not 503. -/
theorem get_product_store_error_w :
    get_product (some ⟨[], true, 0⟩) (genOid 0) = .err 400 "Invalid product id" ∧
    get_product (some ⟨[], true, 0⟩) (genOid 0) ≠ .err 503 "Database not available" :=
  get_product_store_error ⟨[], true, 0⟩ (genOid 0) (genOid 0) (by decide) rfl

/-- C4: for every request to the recommendations endpoint whose limit lies
in the declared range, every lookup failure — absent store handle,
malformed id, store-side lookup error, or no matching product — yields the
empty result and never an error response. -/
theorem recommendations_lookup_failure (db : Option DBState) (pid : String)
    (limit : Int) (h1 : 1 ≤ limit) (h2 : limit ≤ 12) :
    (recommendations none pid limit = .ok []) ∧
    (parseOid pid = none → recommendations db pid limit = .ok []) ∧
    (∀ st, st.findFails = true → recommendations (some st) pid limit = .ok []) ∧
    (∀ st o, parseOid pid = some o → st.findFails = false →
        findOne st.docs o = none → recommendations (some st) pid limit = .ok []) := by
  have hcond : ¬(limit < 1 ∨ 12 < limit) := by omega
  refine ⟨?_, ?_, ?_, ?_⟩
  · unfold recommendations
    rw [if_neg hcond]
  · intro hp
    unfold recommendations
    rw [if_neg hcond]
    cases db with
    | none => rfl
    | some st => simp [hp]
  · intro st hf
    unfold recommendations
    rw [if_neg hcond]
    cases hp : parseOid pid with
    | none => rfl
    | some o => simp [hf]
  · intro st o hp hf hfo
    unfold recommendations
    rw [if_neg hcond]
    simp [hp, hf, hfo]

/-- C4, witness: no handle; malformed id; failing store; id matching no
product — each yields the empty list at the default limit. -/
theorem recommendations_lookup_failure_w :
    recommendations none "zz" 4 = .ok [] ∧
    recommendations (some emptyStore) "zz" 4 = .ok [] ∧
    recommendations (some ⟨[], true, 0⟩) (genOid 0) 4 = .ok [] ∧
    recommendations (some emptyStore) (genOid 0) 4 = .ok [] :=
  ⟨(recommendations_lookup_failure none "zz" 4 (by decide) (by decide)).1,
   (recommendations_lookup_failure (some emptyStore) "zz" 4 (by decide) (by decide)).2.1
     (by decide),
   (recommendations_lookup_failure (some ⟨[], true, 0⟩) (genOid 0) 4 (by decide)
     (by decide)).2.2.1 ⟨[], true, 0⟩ rfl,
   (recommendations_lookup_failure (some emptyStore) (genOid 0) 4 (by decide)
     (by decide)).2.2.2 emptyStore (genOid 0) (by decide) rfl rfl⟩

/-- C6: a limit in [1,100] yields at most `limit` items for every store
state and category; a limit outside [1,100] is rejected by input validation
(422) with no store query issued. -/
theorem list_products_limit (db : Option DBState) (category : Option String)
    (limit : Int) :
    (∀ l, 1 ≤ limit → limit ≤ 100 → (list_products db category limit).1 = .ok l →
        l.length ≤ limit.toNat) ∧
    ((limit < 1 ∨ 100 < limit) →
        list_products db category limit = (.err 422 "Input validation failed", 0)) := by
  constructor
  · intro l h1 h2 h
    unfold list_products at h
    rw [if_neg (by omega)] at h
    cases ho : outsOfDocs (get_documents db (categoryFilter category) limit.toNat) with
    | error e => rw [ho] at h; cases h
    | ok l2 =>
      rw [ho] at h
      injection h with h
      subst h
      rw [outsOfDocs_length ho]
      exact get_documents_length db (categoryFilter category) limit.toNat
  · intro h
    unfold list_products
    rw [if_pos h]

/-- C6, witness: limit 2 on the seeded store returns the first two records;
limit 0 is rejected before any store query. -/
theorem list_products_limit_w :
    ([novaOut, airliteOut] : List ProductOut).length ≤ (2 : Int).toNat ∧
    list_products (some emptyStore) none 0 = (.err 422 "Input validation failed", 0) :=
  ⟨(list_products_limit (seed_database_if_empty (some emptyStore)) none 2).1
      [novaOut, airliteOut] (by decide) (by decide) (by decide),
   (list_products_limit (some emptyStore) none 0).2 (by decide)⟩

section EndpointLemmas

theorem validate_not_oid_iff (v : Value) (hno : ∀ s, v ≠ .vOid s) (r : String) :
    ObjectIdStr.validate v = .ok r ↔ (isValidOid (pyStr v) = true ∧ r = pyStr v) := by
  have hv : ObjectIdStr.validate v =
      if isValidOid (pyStr v) then .ok (pyStr v) else .error "Invalid ObjectId" := by
    cases v <;> first | rfl | exact absurd rfl (hno _)
  rw [hv]
  by_cases hval : isValidOid (pyStr v) = true
  · rw [if_pos hval]
    constructor
    · intro h
      injection h with h
      exact ⟨hval, h.symm⟩
    · rintro ⟨-, rfl⟩
      rfl
  · rw [if_neg hval]
    constructor
    · intro h
      cases h
    · rintro ⟨hc, -⟩
      exact absurd hc hval

theorem docToOut_invalid_id (d : Doc)
    (h : dictGet d "_id" = none ∨ ∃ v, dictGet d "_id" = some v ∧ v.truthy = false) :
    docToOut d = .error "validation error" := by
  unfold docToOut
  by_cases hne : d = []
  · subst hne
    exact mkProductOut_err_of_id (show getIdField (serializeD []) = .error "field required" from rfl)
  · have hid : getIdField (serializeD d) = .error "Invalid ObjectId" := by
      rcases h with h | ⟨v, hv, ht⟩
      · rw [serializeD_no_id h hne, getIdField_eq (dictGet_dictSet_self d "id" .vNone),
            validate_vNone]
      · rw [serializeD_falsy hv ht, getIdField_eq (dictGet_dictSet_self d "id" .vNone),
            validate_vNone]
    exact mkProductOut_err_of_id hid

theorem outsOfDocs_ids {ds : List Doc} {l : List ProductOut}
    (h : outsOfDocs ds = .ok l) : ∀ p ∈ l, isValidOid p.id = true := by
  intro p hp
  obtain ⟨d, -, hd⟩ := outsOfDocs_mem h hp
  exact docToOut_ok_id hd

theorem get_product_ok_id {db : Option DBState} {pid : String} {p : ProductOut}
    (h : get_product db pid = .ok p) : isValidOid p.id = true := by
  unfold get_product at h
  split at h
  · cases h
  · split at h
    · cases h
    · split at h
      · cases h
      · split at h
        · cases h
        · split at h
          · rename_i heq
            injection h with h
            subst h
            exact docToOut_ok_id heq
          · cases h


theorem list_products_ok_inv {db : Option DBState} {cat : Option String}
    {limit : Int} {l : List ProductOut}
    (h : (list_products db cat limit).1 = .ok l) :
    outsOfDocs (get_documents db (categoryFilter cat) limit.toNat) = .ok l := by
  unfold list_products at h
  by_cases hc : limit < 1 ∨ 100 < limit
  · rw [if_pos hc] at h
    cases h
  · rw [if_neg hc] at h
    cases ho : outsOfDocs (get_documents db (categoryFilter cat) limit.toNat) <;>
      rw [ho] at h
    · cases h
    · injection h with h
      subst h
      rfl

theorem featured_products_ok_inv {db : Option DBState} {limit : Int}
    {l : List ProductOut} (h : featured_products db limit = .ok l) :
    outsOfDocs (get_documents db [.eq "featured" (.vBool true)] limit.toNat) = .ok l := by
  unfold featured_products at h
  by_cases hc : limit < 1 ∨ 50 < limit
  · rw [if_pos hc] at h
    cases h
  · rw [if_neg hc] at h
    cases ho : outsOfDocs (get_documents db [.eq "featured" (.vBool true)] limit.toNat) <;>
      rw [ho] at h
    · cases h
    · injection h with h
      subst h
      rfl

theorem search_products_ok_inv {db : Option DBState} {q : String} {limit : Int}
    {l : List ProductOut} (h : (search_products db q limit).1 = .ok l) :
    l = [] ∨ outsOfDocs (get_documents db [.regexI "title" q] limit.toNat) = .ok l := by
  unfold search_products at h
  by_cases hc : limit < 1 ∨ 100 < limit
  · rw [if_pos hc] at h
    cases h
  · rw [if_neg hc] at h
    by_cases hq : q = ""
    · rw [if_pos hq] at h
      injection h with h
      exact .inl h.symm
    · rw [if_neg hq] at h
      cases ho : outsOfDocs (get_documents db [.regexI "title" q] limit.toNat) <;>
        rw [ho] at h
      · cases h
      · injection h with h
        subst h
        exact .inr rfl

theorem recommendations_ok_inv {db : Option DBState} {pid : String} {limit : Int}
    {l : List ProductOut} (h : recommendations db pid limit = .ok l) :
    l = [] ∨ ∃ st o doc, db = some st ∧ parseOid pid = some o ∧
      st.findFails = false ∧ findOne st.docs o = some doc ∧
      outsOfDocs ((st.docs.filter (matchesFilter
          [.eq "category" ((dictGet doc "category").getD .vNone),
           .ne "_id" (.vOid o)])).take limit.toNat) = .ok l := by
  unfold recommendations at h
  split at h
  · cases h
  · split at h
    · injection h with h
      exact .inl h.symm
    · rename_i st
      split at h
      · injection h with h
        exact .inl h.symm
      · rename_i o hp
        split at h
        · injection h with h
          exact .inl h.symm
        · rename_i hf
          split at h
          · injection h with h
            exact .inl h.symm
          · rename_i doc hfo
            split at h
            · rename_i l2 ho
              injection h with h
              subst h
              refine .inr ⟨st, o, doc, rfl, hp, ?_, hfo, ho⟩
              revert hf
              cases st.findFails <;> simp
            · cases h

end EndpointLemmas

/-- C8: `serialize_doc` sets the public `id` field to `None` whenever `_id`
is absent or falsy, in the falsy case leaving the `_id` field in place;
only a truthy `_id` is removed and replaced by its string form under `id`;
and a `None` or empty input is returned unchanged. -/
theorem serialize_doc_id_behavior :
    serialize_doc none = none ∧
    serialize_doc (some []) = some [] ∧
    (∀ d : Doc, d ≠ [] →
      (dictGet d "_id" = none →
        dictGet (serializeD d) "id" = some .vNone) ∧
      (∀ v, dictGet d "_id" = some v → v.truthy = false →
        dictGet (serializeD d) "id" = some .vNone ∧
        dictGet (serializeD d) "_id" = some v) ∧
      (∀ v, dictGet d "_id" = some v → v.truthy = true →
        dictGet (serializeD d) "id" = some (.vStr (pyStr v)) ∧
        dictGet (serializeD d) "_id" = none)) := by
  refine ⟨rfl, rfl, ?_⟩
  intro d hne
  refine ⟨?_, ?_, ?_⟩
  · intro h
    rw [serializeD_no_id h hne, dictGet_dictSet_self]
  · intro v h ht
    rw [serializeD_falsy h ht]
    refine ⟨dictGet_dictSet_self d "id" .vNone, ?_⟩
    rw [dictGet_dictSet_ne d "id" "_id" .vNone (by decide)]
    exact h
  · intro v h ht
    rw [serializeD_truthy h ht]
    refine ⟨dictGet_dictSet_self (dictPop d "_id") "id" (.vStr (pyStr v)), ?_⟩
    rw [dictGet_dictSet_ne (dictPop d "_id") "id" "_id" (.vStr (pyStr v)) (by decide),
        dictGet_dictPop_self]

/-- C8, witness: a present-but-falsy `_id` yields `id = None` with `_id`
kept; a truthy `_id` is removed and stringified. -/
theorem serialize_doc_id_behavior_w :
    (dictGet (serializeD [("_id", Value.vBool false)]) "id" = some .vNone ∧
     dictGet (serializeD [("_id", Value.vBool false)]) "_id" = some (.vBool false)) ∧
    (dictGet (serializeD [("_id", Value.vOid (genOid 0))]) "id" =
       some (.vStr (pyStr (.vOid (genOid 0)))) ∧
     dictGet (serializeD [("_id", Value.vOid (genOid 0))]) "_id" = none) :=
  ⟨(serialize_doc_id_behavior.2.2 [("_id", Value.vBool false)] (by decide)).2.1
     (Value.vBool false) (by decide) rfl,
   (serialize_doc_id_behavior.2.2 [("_id", Value.vOid (genOid 0))] (by decide)).2.2
     (Value.vOid (genOid 0)) (by decide) rfl⟩

/-- C9: `ObjectIdStr.validate` turns an ObjectId into its string form,
accepts any other value exactly when its string form parses as an ObjectId
(`None` in particular is rejected), a document whose `_id` is absent or
falsy fails `ProductOut` construction instead of yielding a null id, and
every product payload any endpoint successfully returns carries an id
string that parses as an ObjectId. -/
theorem product_id_validation :
    (∀ s, ObjectIdStr.validate (.vOid s) = .ok s) ∧
    ObjectIdStr.validate .vNone = .error "Invalid ObjectId" ∧
    (∀ v, (∀ s, v ≠ .vOid s) → ∀ r,
        ObjectIdStr.validate v = .ok r ↔ (isValidOid (pyStr v) = true ∧ r = pyStr v)) ∧
    (∀ d : Doc, (dictGet d "_id" = none ∨ ∃ v, dictGet d "_id" = some v ∧ v.truthy = false) →
        docToOut d = .error "validation error") ∧
    (∀ db pid p, get_product db pid = .ok p → isValidOid p.id = true) ∧
    (∀ db cat limit l, (list_products db cat limit).1 = .ok l →
        ∀ p ∈ l, isValidOid p.id = true) ∧
    (∀ db limit l, featured_products db limit = .ok l →
        ∀ p ∈ l, isValidOid p.id = true) ∧
    (∀ db q limit l, (search_products db q limit).1 = .ok l →
        ∀ p ∈ l, isValidOid p.id = true) ∧
    (∀ db pid limit l, recommendations db pid limit = .ok l →
        ∀ p ∈ l, isValidOid p.id = true) := by
  refine ⟨fun s => rfl, validate_vNone, validate_not_oid_iff, docToOut_invalid_id,
    fun db pid p h => get_product_ok_id h,
    fun db cat limit l h => outsOfDocs_ids (list_products_ok_inv h),
    fun db limit l h => outsOfDocs_ids (featured_products_ok_inv h),
    fun db q limit l h => ?_, fun db pid limit l h => ?_⟩
  · rcases search_products_ok_inv h with rfl | ho
    · intro p hp
      cases hp
    · exact outsOfDocs_ids ho
  · rcases recommendations_ok_inv h with rfl | ⟨st, o, doc, -, -, -, -, ho⟩
    · intro p hp
      cases hp
    · exact outsOfDocs_ids ho

/-- C9, witness: a valid hex string validates to itself, a document with a
null `_id` fails construction, and a seeded featured payload has a
parseable id. -/
theorem product_id_validation_w :
    ObjectIdStr.validate (.vStr (genOid 0)) = .ok (genOid 0) ∧
    docToOut [("_id", Value.vNone)] = .error "validation error" ∧
    isValidOid novaOut.id = true :=
  ⟨(product_id_validation.2.2.1 (.vStr (genOid 0)) (fun s => by intro hh; cases hh)
      (genOid 0)).mpr ⟨by decide, rfl⟩,
   product_id_validation.2.2.2.1 [("_id", Value.vNone)]
      (.inr ⟨Value.vNone, by decide, rfl⟩),
   product_id_validation.2.2.2.2.2.2.1 (seed_database_if_empty (some emptyStore)) 10
      [novaOut, airliteOut, atlasOut] (by decide) novaOut (by decide)⟩

/-- C3: whenever the recommendations endpoint returns a result list on a
store whose documents carry store-assigned ids, the list holds at most
`limit` products, every returned product has the category of the looked-up
product, and the looked-up product itself — the one whose id was given —
is never among the results. -/
theorem recommendations_props (db : Option DBState) (pid : String) (limit : Int)
    (l : List ProductOut) (hwf : WFStore db = true)
    (h : recommendations db pid limit = .ok l) :
    l.length ≤ limit.toNat ∧
    ∀ p ∈ l, ∃ st o doc, db = some st ∧ parseOid pid = some o ∧
      findOne st.docs o = some doc ∧
      dictGet doc "category" = some (.vStr p.category) ∧
      parseOid p.id = some p.id ∧ p.id ≠ o ∧ parseOid p.id ≠ parseOid pid := by
  rcases recommendations_ok_inv h with rfl | ⟨st, o, doc, rfl, hp, hf, hfo, ho⟩
  · refine ⟨by simp, ?_⟩
    intro p hp2
    cases hp2
  · constructor
    · rw [outsOfDocs_length ho]
      exact List.length_take_le _ _
    · intro p hpm
      obtain ⟨d, hdmem, hdout⟩ := outsOfDocs_mem ho hpm
      have hdm2 : d ∈ st.docs.filter (matchesFilter
          [.eq "category" ((dictGet doc "category").getD .vNone),
           .ne "_id" (.vOid o)]) :=
        List.Sublist.mem hdmem (List.take_sublist _ _)
      obtain ⟨hdocs, hmatch⟩ := List.mem_filter.mp hdm2
      have hwfd : WFDoc d = true := by
        simp only [WFStore, List.all_eq_true] at hwf
        exact hwf d hdocs
      obtain ⟨hid_eq, hcanon⟩ := docToOut_WF_id hwfd hdout
      have hcat_d := docToOut_ok_category hdout
      simp only [matchesFilter, List.all_cons, List.all_nil, Bool.and_eq_true,
        Bool.and_true] at hmatch
      obtain ⟨hc1, hc2⟩ := hmatch
      simp only [condHolds, beq_iff_eq] at hc1
      simp only [condHolds] at hc2
      rw [hid_eq] at hc2
      have hne_o : p.id ≠ o := by
        simp only [bne_iff_ne, ne_eq, Value.vOid.injEq] at hc2
        exact hc2
      have hcat_doc : dictGet doc "category" = some (.vStr p.category) := by
        cases hg : dictGet doc "category" with
        | none =>
          rw [hg] at hc1
          rw [hcat_d] at hc1
          simp at hc1
        | some c =>
          rw [hg] at hc1
          rw [hcat_d] at hc1
          simp at hc1
          exact congrArg some hc1.symm
      refine ⟨st, o, doc, rfl, hp, hfo, hcat_doc, parseOid_canonical hcanon, hne_o, ?_⟩
      rw [hp, parseOid_canonical hcanon]
      simp [hne_o]

/-- A store of two phones with store-assigned ids, for exercising the
recommendations endpoint on a non-empty same-category result. -/
def phoneStore : DBState :=
  ⟨[ [("_id", Value.vOid (genOid 0)), ("title", Value.vStr "Phone A"),
      ("price", Value.vNum (mkRat 10 1)), ("category", Value.vStr "Phones")],
     [("_id", Value.vOid (genOid 1)), ("title", Value.vStr "Phone B"),
      ("price", Value.vNum (mkRat 20 1)), ("category", Value.vStr "Phones")]],
   false, 2⟩

/-- The payload of the second phone of `phoneStore`. -/
def phoneBOut : ProductOut :=
  ⟨"Phone B", none, mkRat 20 1, "Phones", true, [], none, false, mkRat 46 10,
   none, genOid 1⟩

/-- C3, witness: recommendations for the first phone of a two-phone store
return exactly the other phone — same category, different id. -/
theorem recommendations_props_w :
    [phoneBOut].length ≤ (4 : Int).toNat ∧
    ∀ p ∈ [phoneBOut], ∃ st o doc,
      (some phoneStore : Option DBState) = some st ∧ parseOid (genOid 0) = some o ∧
      findOne st.docs o = some doc ∧
      dictGet doc "category" = some (.vStr p.category) ∧
      parseOid p.id = some p.id ∧ p.id ≠ o ∧ parseOid p.id ≠ parseOid (genOid 0) :=
  recommendations_props (some phoneStore) (genOid 0) 4 [phoneBOut] (by decide) (by decide)

end FlamesBlue
